import Mathlib

/-!
# Open Palace — shallow embedding and verification of spec claims

This file embeds the parts of the Open Palace memory engine (a TypeScript
MCP server) that the frozen claims are about, and proves or refutes each
claim against the embedding.

Conventions of the embedding:
* ISO-8601 UTC timestamps compare lexicographically exactly as they compare
  chronologically, so timestamps are embedded as natural numbers.  For the
  decay engine the unit is days (the source computes
  `(Date.now() - t) / 86400000` clamped at 0, and compares the result with
  whole-day thresholds 7/30/60/90 and `max_age_days`).
* YAML files keyed by path are embedded as association lists; a missing
  file reads as `none` (the source's `readYaml` returns `null` on any read
  failure).
* `async` functions become pure functions with the clock passed in
  explicitly; the language-model caller becomes a function argument
  returning `Except String String` (an exception becomes `.error`).
* Side effects that no claim mentions (git commits, post-write hooks,
  search reindexing) are not modelled.
-/

namespace OpenPalace

/-- Association-list lookup by string key (embeds reading one entry of a
JS object / `Map`). -/
def alookup {α : Type} : List (String × α) → String → Option α
  | [], _ => none
  | (k, v) :: rest, key => if k = key then some v else alookup rest key

/-- Association-list upsert by string key (embeds `obj[key] = v` /
`Map.set`). -/
def aupsert {α : Type} : List (String × α) → String → α → List (String × α)
  | [], key, v => [(key, v)]
  | (k, w) :: rest, key, v =>
    if k = key then (key, v) :: rest else (k, w) :: aupsert rest key v

theorem alookup_aupsert_self {α : Type} (l : List (String × α)) (k : String) (v : α) :
    alookup (aupsert l k v) k = some v := by
  induction l with
  | nil => simp [aupsert, alookup]
  | cons hd tl ih =>
    obtain ⟨k0, v0⟩ := hd
    by_cases h : k0 = k
    · simp [aupsert, alookup, h]
    · simp [aupsert, alookup, h, ih]

theorem alookup_aupsert_ne {α : Type} (l : List (String × α)) (k k1 : String) (v : α)
    (h : k1 ≠ k) : alookup (aupsert l k v) k1 = alookup l k1 := by
  induction l with
  | nil =>
    simp only [aupsert, alookup]
    rw [if_neg (fun hh => h hh.symm)]
  | cons hd tl ih =>
    obtain ⟨k0, v0⟩ := hd
    by_cases h0 : k0 = k
    · subst h0
      simp only [aupsert, if_pos rfl, alookup]
      rw [if_neg (fun hh => h hh.symm), if_neg (fun hh => h hh.symm)]
    · simp only [aupsert, if_neg h0, alookup]
      by_cases h1 : k0 = k1
      · simp [h1]
      · simp [h1, ih]

-- ─── Changelog data model (src/src/types.ts) ─────────────────────────────

/-- Entry type of a changelog entry (`"operation" | "decision"`). -/
inductive EntryType where
  | operation
  | decision
deriving DecidableEq

/-- A rejected alternative on a decision entry. -/
structure ChangelogAlt where
  option : String
  rejected_because : String
deriving DecidableEq

/-- A changelog entry (`ChangelogEntry` in src/src/types.ts).  `time` is an
abstract timestamp (see file header); `git_ref` is dropped, no claim uses
it. -/
structure ChangelogEntry where
  id : String
  time : Nat
  agent : Option String := none
  type : EntryType
  scope : String
  action : Option String := none
  target : Option String := none
  decision : Option String := none
  rationale : Option String := none
  alternatives : Option (List ChangelogAlt) := none
  summary : String
  details : Option String := none
deriving DecidableEq

-- ─── Changelog engine (src/unnamed/part_009, a copy of core/changelog.ts) ─

/-- Input of `recordChangelog` (`RecordInput` in part_009; this copy has no
`validate` flag). -/
structure RecordInput where
  scope : String
  type : EntryType
  agent : Option String := none
  action : Option String := none
  target : Option String := none
  decision : Option String := none
  rationale : Option String := none
  alternatives : Option (List ChangelogAlt) := none
  summary : String
  details : Option String := none
deriving DecidableEq

/-- The changelog-bearing part of the on-disk store: per-component
changelog files keyed by `<type>/<key>` and month-bucketed global files
keyed by `YYYY-MM`. -/
structure PalaceStore where
  componentLogs : List (String × List ChangelogEntry)
  globalLogs : List (String × List ChangelogEntry)
deriving DecidableEq

/-- Split a character list on a separator character (the semantics of
`String.prototype.split` with a one-character separator: the empty string
yields one empty segment). -/
def splitOnChar (sep : Char) : List Char → List (List Char)
  | [] => [[]]
  | c :: rest =>
    match splitOnChar sep rest with
    | [] => if c = sep then [[], []] else [[c]]
    | h :: t => if c = sep then [] :: h :: t else (c :: h) :: t

/-- Rejoin segments with a separator character (the semantics of
`Array.prototype.join`). -/
def joinWithChar (sep : Char) : List (List Char) → List Char
  | [] => []
  | [x] => x
  | x :: xs => x ++ sep :: joinWithChar sep xs

/-- `resolveComponentChangelog` of part_009: a scope with at least two
`/`-separated segments resolves to `(type, key)` where `key` rejoins the
remaining segments; anything shorter resolves to nothing. -/
def resolveComponentChangelog (scope : String) : Option (String × String) :=
  match splitOnChar ('/') scope.data with
  | [] => none
  | [_] => none
  | t :: rest => some (String.mk t, String.mk (joinWithChar ('/') rest))

/-- The path key of a component changelog file, determined by type and
key (embeds `paths.componentChangelog`). -/
def componentPath (t k : String) : String :=
  t ++ "/" ++ k

/-- `appendYamlEntry` of src/src/utils/yaml.ts: read the array (missing
file = empty), push the entry, write the whole file back. -/
def appendYamlEntry (logs : List (String × List ChangelogEntry)) (path : String)
    (e : ChangelogEntry) : List (String × List ChangelogEntry) :=
  aupsert logs path (((alookup logs path).getD []) ++ [e])

/-- `recordChangelog` of part_009: build the entry from the input with a
fresh id and timestamp, append it to the component changelog when the
scope resolves, then always append it to the month-bucketed global
changelog.  (The post-write hook is not modelled.) -/
def recordChangelog (input : RecordInput) (id : String) (time : Nat) (ym : String)
    (store : PalaceStore) : ChangelogEntry × PalaceStore :=
  let entry : ChangelogEntry :=
    { id := id, time := time, agent := input.agent, type := input.type,
      scope := input.scope, action := input.action, target := input.target,
      decision := input.decision, rationale := input.rationale,
      alternatives := input.alternatives, summary := input.summary,
      details := input.details }
  let store1 : PalaceStore :=
    match resolveComponentChangelog input.scope with
    | some (t, k) =>
      { store with componentLogs := appendYamlEntry store.componentLogs (componentPath t k) entry }
    | none => store
  let store2 : PalaceStore :=
    { store1 with globalLogs := appendYamlEntry store1.globalLogs ym entry }
  (entry, store2)

/-- The entries currently in a component changelog file. -/
def componentEntries (store : PalaceStore) (path : String) : List ChangelogEntry :=
  (alookup store.componentLogs path).getD []

/-- The entries currently in a global month file. -/
def globalEntries (store : PalaceStore) (ym : String) : List ChangelogEntry :=
  (alookup store.globalLogs ym).getD []

-- ─── Identifier services (src/unnamed/part_003 and src/src/utils/id.ts) ──

/-- Id prefix accepted by `generateId` (`"op" | "dec"`). -/
inductive IdKind where
  | op
  | dec
deriving DecidableEq

/-- Rendering of the id prefix. -/
def IdKind.str : IdKind → String
  | .op => "op"
  | .dec => "dec"

/-- Decimal digits of a natural number, most significant first; the first
argument is recursion fuel (`n` itself always suffices). -/
def natDigits : Nat → Nat → List Char
  | 0, _ => []
  | fuel + 1, n =>
    if n = 0 then [] else natDigits fuel (n / 10) ++ [Nat.digitChar (n % 10)]

/-- Decimal rendering of a natural number (`String(n)`). -/
def natToString (n : Nat) : String :=
  if n = 0 then "0" else String.mk (natDigits n n)

/-- `pad(n, 3)` via `String.padStart(3, "0")`: left-pads with zeros, never
truncates. -/
def pad3 (n : Nat) : String :=
  if n < 10 then "00" ++ natToString n
  else if n < 100 then "0" ++ natToString n
  else natToString n

/-- In-memory state of the recovering id generator of part_003: the
module-level `counter` and `counterDate` variables.  A fresh process starts
at `⟨0, ""⟩`. -/
structure IdState where
  counter : Nat
  counterDate : String
deriving DecidableEq

/-- Numeric value of a run of decimal digit characters. -/
def digitsVal (ds : List Char) : Nat :=
  ds.foldl (fun acc c => acc * 10 + (c.toNat - 48)) 0

/-- The match a single id-shaped token of the global month log contributes
to the recovery scan of part_003: the regex `(?:op|dec)_MMDD_(\d{3})`
captures the first three digits of the trailing run (so `op_0225_1000`
contributes 100). -/
def scanToken (mmdd : String) (token : String) : Option Nat :=
  match splitOnChar ('_') token.data with
  | [p, m, d] =>
    if (String.mk p = "op" ∨ String.mk p = "dec") ∧ String.mk m = mmdd ∧
        3 ≤ d.length ∧ (d.take 3).all Char.isDigit
    then some (digitsVal (d.take 3))
    else none
  | _ => none

/-- The recovery scan of `ensureCounterInitialized` (part_003): maximum
counter value among today's id tokens occurring in the global month log
(content embedded as the list of id-shaped tokens it contains), 0 when the
file is missing or holds none. -/
def scanMaxId (content : List String) (mmdd : String) : Nat :=
  content.foldl (fun acc tok => max acc ((scanToken mmdd tok).getD 0)) 0

/-- `ensureCounterInitialized` of part_003: on the first use each day,
reset the counter to the maximum observed in the global month log. -/
def ensureCounterInitialized (mmdd : String) (content : List String)
    (s : IdState) : IdState :=
  if s.counterDate = mmdd then s else { counter := scanMaxId content mmdd, counterDate := mmdd }

/-- `generateId` of src/unnamed/part_003 (the recovering variant):
recover the counter on first use each day, then increment and render
`{op|dec}_{MMDD}_{NNN}`. -/
def generateIdRecovering (kind : IdKind) (mmdd : String) (content : List String)
    (s : IdState) : String × IdState :=
  let s1 := ensureCounterInitialized mmdd content s
  let c := s1.counter + 1
  (kind.str ++ "_" ++ mmdd ++ "_" ++ pad3 c, { s1 with counter := c })

/-- `generateId` of src/src/utils/id.ts (the non-recovering variant): a
bare module-level counter, starting at 0 in every fresh process, never
recovered from disk and never reset per day. -/
def generateIdNonRecovering (kind : IdKind) (mmdd : String) (counter : Nat) :
    String × Nat :=
  (kind.str ++ "_" ++ mmdd ++ "_" ++ pad3 (counter + 1), counter + 1)

-- ─── Write validation (src/src/core/validation.ts) ───────────────────────

/-- Risk categories of the write validator. -/
inductive RiskType where
  | duplicate
  | contradiction
  | hallucination
  | stale_override
deriving DecidableEq

/-- Risk severities of the write validator. -/
inductive Severity where
  | error
  | warning
  | info
deriving DecidableEq

/-- One validation risk (`ValidationRisk` in src/src/types.ts). -/
structure ValidationRisk where
  type : RiskType
  severity : Severity
  description : String
  conflicting_entry_id : Option String := none
deriving DecidableEq

/-- A validator verdict (`ValidationResult` in src/src/types.ts). -/
structure ValidationResult where
  passed : Bool
  risks : List ValidationRisk
  suggestion : Option String := none
deriving DecidableEq

/-- Validation subsection of the config (`ValidationConfig` in
src/src/types.ts). -/
structure ValidationConfig where
  enabled : Bool
  auto_validate_decisions : Bool
  auto_validate_summaries : Bool
deriving DecidableEq

/-- The documented validation defaults (src/unnamed/part_008 DEFAULT_CONFIG
and the CONFIG_REFERENCE rows of src/src/core/retrieval-digest.ts):
`auto_validate_decisions` defaults to true. -/
def defaultValidationConfig : ValidationConfig :=
  { enabled := true, auto_validate_decisions := true, auto_validate_summaries := false }

/-- String containment (`String.prototype.includes`): the needle occurs
as a contiguous substring of the haystack. -/
def strIncludes (hay needle : String) : Bool :=
  decide (needle.data <:+: hay.data)

/-- `validateWithHeuristics` of src/src/core/validation.ts: flag a
duplicate warning for every existing entry whose summary or decision
matches the new content exactly (lowercased and trimmed) or, for contents
longer than 20 characters, contains it or is contained in it. -/
def validateWithHeuristics (newContent : String) (existingEntries : List ChangelogEntry) :
    ValidationResult :=
  let contentLower := newContent.toLower.trim
  let risks := existingEntries.filterMap (fun entry =>
    let entrySummary := entry.summary.toLower.trim
    let entryDecision := ((entry.decision.getD "").toLower.trim)
    if entrySummary = contentLower ∨ entryDecision = contentLower ∨
        (20 < contentLower.length ∧ (strIncludes entrySummary contentLower ∨
          strIncludes contentLower entrySummary))
    then some { type := RiskType.duplicate, severity := Severity.warning,
                description := "Content appears to duplicate existing entry",
                conflicting_entry_id := some entry.id }
    else none)
  { passed := risks.isEmpty, risks := risks,
    suggestion := if risks.isEmpty then none
      else some "Heuristic check only (LLM unavailable). Review flagged entries manually." }

/-- Input of the validation-integrated changelog record: the part_009
`RecordInput` plus the `validate` flag of §4.5 (the flag the smoke test
src/unnamed/part_012 passes). -/
structure RecordInputV where
  base : RecordInput
  validate : Bool := false
deriving DecidableEq

/-- Modelled from the spec: the validation step of `recordChangelog` in
`src/core/changelog.ts`.  That file is absent from the provided sources
(part_009 is a copy from before validation was integrated: its
`RecordInput` has no `validate` flag), but the CONFIG_REFERENCE row for
`validation.auto_validate_decisions` names `changelog.ts → recordChangelog()`
as its code reference and the smoke test calls `recordChangelog` with
`validate: true`.  Per spec §4.5 step 1: if `validate` is set, or if the
entry is a decision and `validation.auto_validate_decisions` is true, the
validator is invoked; a non-passing verdict is advisory (the entry is
still written) and the risks are returned with the result.  The write
steps follow the provided `recordChangelog`. -/
def recordChangelogValidated (validator : RecordInput → ValidationResult)
    (cfg : ValidationConfig) (input : RecordInputV) (id : String) (time : Nat)
    (ym : String) (store : PalaceStore) :
    ChangelogEntry × Option ValidationResult × PalaceStore :=
  let shouldValidate :=
    input.validate || (input.base.type = EntryType.decision && cfg.auto_validate_decisions)
  let verdict := if shouldValidate then some (validator input.base) else none
  let (entry, store2) := recordChangelog input.base id time ym store
  (entry, verdict, store2)

-- ─── Relationship memory (src/src/core/relationship.ts) ──────────────────

/-- Relationship entity type (`"user" | "agent" | "external"`). -/
inductive RelType where
  | user
  | agent
  | external
deriving DecidableEq

/-- The free-form `profile` sub-object of a relationship profile. -/
structure ProfileFields where
  style : Option String := none
  expertise : Option (List String) := none
  language_pref : Option (List String) := none
  notes : Option String := none
deriving DecidableEq

/-- One accumulated interaction tag (`InteractionTag`). -/
structure InteractionTag where
  tag : String
  count : Nat
  last : String
  note : Option String := none
deriving DecidableEq

/-- One trust history item (`TrustChange`); numbers are embedded as
rationals. -/
structure TrustChange where
  date : String
  delta : ℚ
  reason : String
deriving DecidableEq

/-- A relationship profile (`RelationshipProfile`). -/
structure RelationshipProfile where
  entity_id : String
  type : RelType
  profile : ProfileFields
  interaction_tags : List InteractionTag
  trust_score : ℚ
  trust_history : List TrustChange
deriving DecidableEq

/-- `defaultProfile` of relationship.ts: type "user", empty profile, no
tags, trust 0.5, empty history. -/
def defaultProfile (entityId : String) : RelationshipProfile :=
  { entity_id := entityId, type := RelType.user, profile := {},
    interaction_tags := [], trust_score := 1 / 2, trust_history := [] }

/-- The relationship-relevant part of the store: the set of component
scopes whose summary file exists (`loadComponent` returns null exactly
when the summary is missing) and the per-entity profile files. -/
structure RelStore where
  components : List String
  profiles : List (String × RelationshipProfile)
deriving DecidableEq

/-- The backing component scope for an entity. -/
def relScope (entityId : String) : String :=
  "relationships/" ++ entityId

/-- `ensureRelationshipComponent` of relationship.ts: if
`loadComponent("relationships/<id>")` finds nothing, create the component
(dirs, summary, empty changelog and L0 row are not modelled beyond
existence). -/
def ensureRelationshipComponent (entityId : String) (store : RelStore) : RelStore :=
  if relScope entityId ∈ store.components then store
  else { store with components := relScope entityId :: store.components }

/-- `updateTrust` of relationship.ts: ensure the backing component, read
the profile (default when absent), clamp `trust_score + delta` into
[0, 1], append the caller's delta to the history, write the profile back.
(The operation-changelog append and the post-write hook are not
modelled.) -/
def updateTrust (entityId : String) (delta : ℚ) (reason : String) (date : String)
    (store : RelStore) : RelationshipProfile × RelStore :=
  let store1 := ensureRelationshipComponent entityId store
  let existing := (alookup store1.profiles entityId).getD (defaultProfile entityId)
  let p : RelationshipProfile :=
    { existing with
      trust_score := max 0 (min 1 (existing.trust_score + delta)),
      trust_history := existing.trust_history ++ [{ date := date, delta := delta, reason := reason }] }
  (p, { store1 with profiles := aupsert store1.profiles entityId p })

/-- Updates accepted by `updateProfile` (partial profile fields plus an
optional type). -/
structure ProfileUpdates where
  type : Option RelType := none
  style : Option String := none
  expertise : Option (List String) := none
  language_pref : Option (List String) := none
  notes : Option String := none
deriving DecidableEq

/-- `updateProfile` of relationship.ts: ensure the backing component, read
the profile (default when absent), set the type when supplied, spread the
supplied profile fields over the existing ones, write back. -/
def updateProfile (entityId : String) (updates : ProfileUpdates) (store : RelStore) :
    RelationshipProfile × RelStore :=
  let store1 := ensureRelationshipComponent entityId store
  let existing := (alookup store1.profiles entityId).getD (defaultProfile entityId)
  let p : RelationshipProfile :=
    { existing with
      type := updates.type.getD existing.type,
      profile :=
        { style := updates.style.orElse (fun _ => existing.profile.style),
          expertise := updates.expertise.orElse (fun _ => existing.profile.expertise),
          language_pref := updates.language_pref.orElse (fun _ => existing.profile.language_pref),
          notes := updates.notes.orElse (fun _ => existing.profile.notes) } }
  (p, { store1 with profiles := aupsert store1.profiles entityId p })

/-- Fold one tag into the accumulated interaction tags: bump count and
last date when present, else push `{tag, count: 1, last}`. -/
def addTag (date : String) (tags : List InteractionTag) (tag : String) :
    List InteractionTag :=
  if tags.any (fun t => t.tag = tag) then
    tags.map (fun t => if t.tag = tag then { t with count := t.count + 1, last := date } else t)
  else
    tags ++ [{ tag := tag, count := 1, last := date }]

/-- `logInteraction` of relationship.ts: ensure the backing component,
read the profile (default when absent), accumulate each tag, write
back. -/
def logInteraction (entityId : String) (tags : List String) (date : String)
    (store : RelStore) : RelationshipProfile × RelStore :=
  let store1 := ensureRelationshipComponent entityId store
  let existing := (alookup store1.profiles entityId).getD (defaultProfile entityId)
  let p : RelationshipProfile :=
    { existing with interaction_tags := tags.foldl (addTag date) existing.interaction_tags }
  (p, { store1 with profiles := aupsert store1.profiles entityId p })

-- ─── Context snapshot (src/src/core/search-qmd.ts, snapshot section) ─────

/-- Task status in a snapshot. -/
inductive TaskStatus where
  | active
  | blocked
  | waiting
deriving DecidableEq

/-- Task priority in a snapshot. -/
inductive TaskPriority where
  | high
  | medium
  | low
deriving DecidableEq

/-- One active task of a snapshot (`SnapshotTask`). -/
structure SnapshotTask where
  description : String
  status : TaskStatus
  priority : Option TaskPriority := none
  blockers : Option (List String) := none
deriving DecidableEq

/-- Session metadata of a snapshot. -/
structure SessionMeta where
  compaction_count : Option Nat := none
  started_at : Option String := none
deriving DecidableEq

/-- The singleton snapshot document (`Snapshot`). -/
structure Snapshot where
  updated_at : String
  updated_by : Option String := none
  current_focus : String
  active_tasks : List SnapshotTask
  blockers : List String
  recent_decisions : List String
  context_notes : String
  session_meta : Option SessionMeta := none
deriving DecidableEq

/-- Input of `saveSnapshot` (`Partial<Snapshot> & {current_focus}`):
`current_focus` is required, every other field optional. -/
structure SnapshotInput where
  current_focus : String
  updated_by : Option String := none
  active_tasks : Option (List SnapshotTask) := none
  blockers : Option (List String) := none
  recent_decisions : Option (List String) := none
  context_notes : Option String := none
  session_meta : Option SessionMeta := none
deriving DecidableEq

/-- `saveSnapshot` of search-qmd.ts: build the new document — supplied
fields win, unsupplied fields inherit from the existing snapshot via `??`,
list fields default to `[]` and notes to `""` when there is no previous
snapshot — refresh `updated_at`, and overwrite the file.  (The post-write
hook is not modelled.) -/
def saveSnapshot (existing : Option Snapshot) (input : SnapshotInput) (now : String) :
    Snapshot :=
  { updated_at := now,
    updated_by := input.updated_by.orElse (fun _ => existing.bind (fun s => s.updated_by)),
    current_focus := input.current_focus,
    active_tasks := input.active_tasks.getD ((existing.map (fun s => s.active_tasks)).getD []),
    blockers := input.blockers.getD ((existing.map (fun s => s.blockers)).getD []),
    recent_decisions :=
      input.recent_decisions.getD ((existing.map (fun s => s.recent_decisions)).getD []),
    context_notes := input.context_notes.getD ((existing.map (fun s => s.context_notes)).getD ""),
    session_meta := input.session_meta.orElse (fun _ => existing.bind (fun s => s.session_meta)) }

/-- The snapshot file contents after a save: the file is overwritten with
the freshly built document. -/
def snapshotFileAfterSave (existing : Option Snapshot) (input : SnapshotInput)
    (now : String) : Option Snapshot :=
  some (saveSnapshot existing input now)

/-- `readSnapshot` of search-qmd.ts: return the document on disk or
null. -/
def readSnapshot (file : Option Snapshot) : Option Snapshot :=
  file

-- ─── System registry (src/src/core/search-qmd.ts, system section) ────────

/-- Parameters of a system execution, embedded as an opaque association
list. -/
def SystemParams : Type :=
  List (String × String)

/-- Result of a system run (`SystemRunResult`; the free-form `details`
record is dropped, no claim inspects it).  `duration_ms` is kept as a
field but the wall clock is not modelled, so it stays 0. -/
structure SystemRunResult where
  success : Bool
  message : String
  duration_ms : Nat := 0
deriving DecidableEq

/-- Persisted per-system state (`SystemState`). -/
structure SystemState where
  last_run : Option String := none
  last_result : Option String := none
  last_message : Option String := none
  run_count : Nat := 0
  pending_items : Option Nat := none
deriving DecidableEq

/-- A registered system (`SystemRegistration`): its `execute` function may
throw, embedded as `Except String SystemRunResult`. -/
structure SystemRegistration where
  name : String
  description : String
  default_trigger : String
  execute : SystemParams → Except String SystemRunResult

/-- `executeSystem` of search-qmd.ts: unknown names return a structured
failure without touching state; otherwise run `execute`, catching a thrown
error into `success = false` with message `System error: <msg>`; then
update the system's persisted state exactly once — `last_run`,
`last_result`, `last_message`, and `run_count + 1` — and save. -/
def executeSystem (registry : List (String × SystemRegistration))
    (stateMap : List (String × SystemState)) (name : String)
    (params : SystemParams) (now : String) :
    SystemRunResult × List (String × SystemState) :=
  match alookup registry name with
  | none =>
    ({ success := false, message := "System not found: " ++ name }, stateMap)
  | some reg =>
    let result : SystemRunResult :=
      match reg.execute params with
      | Except.ok r => r
      | Except.error e => { success := false, message := "System error: " ++ e }
    let st := (alookup stateMap name).getD {}
    let st1 : SystemState :=
      { st with
        last_run := some now,
        last_result := some (if result.success then "success" else "error"),
        last_message := some result.message,
        run_count := st.run_count + 1 }
    (result, aupsert stateMap name st1)

-- ─── Librarian digest (src/src/core/librarian.ts, first document) ────────

/-- Persistent librarian state (`LibrarianState` of librarian.ts): three
optional timestamps, nothing per-component. -/
structure LibrarianState where
  last_digest : Option Nat := none
  last_synthesis : Option Nat := none
  last_review : Option Nat := none
deriving DecidableEq

/-- One discovered component as the digest sees it: its scope, its
changelog file, and its current summary file. -/
structure DigestComponent where
  fullKey : String
  changelog : List ChangelogEntry
  summary : Option String
deriving DecidableEq

/-- `filterNewEntries` of librarian.ts: with no `since` timestamp keep
everything, otherwise keep entries strictly newer. -/
def filterNewEntries (entries : List ChangelogEntry) (since : Option Nat) :
    List ChangelogEntry :=
  match since with
  | none => entries
  | some s => entries.filter (fun e => s < e.time)

/-- The per-component body of the `runDigest` loop: skip components with
an empty changelog or no entries newer than `last_digest`; otherwise call
the language model (abstracted as a function of the component and its new
entries) and on success overwrite the summary, on failure record an error
of the form `<fullKey> (LLM): <msg>` and leave the summary untouched. -/
def digestComponent (llm : DigestComponent → List ChangelogEntry → Except String String)
    (since : Option Nat) (comp : DigestComponent) :
    DigestComponent × Option String × Bool :=
  if comp.changelog.isEmpty then (comp, none, false)
  else
    let newEntries := filterNewEntries comp.changelog since
    if newEntries.isEmpty then (comp, none, false)
    else
      match llm comp newEntries with
      | Except.ok updatedSummary => ({ comp with summary := some updatedSummary }, none, true)
      | Except.error e => (comp, some (comp.fullKey ++ " (LLM): " ++ e), false)

/-- Outcome of a digest run. -/
structure DigestOutcome where
  state : LibrarianState
  components : List DigestComponent
  updated : Nat
  errors : List String
  success : Bool
deriving DecidableEq

/-- `runDigest` of librarian.ts: restrict to the scoped component when a
scope is given; when no component is targeted return success without
touching the state; otherwise process every targeted component
(non-targeted summaries stay as they are), then set `last_digest` to the
current time unconditionally — whether or not any per-component LLM call
failed — and report success iff no errors were collected.  (The git commit
is not modelled.) -/
def runDigest (scope : Option String) (state : LibrarianState)
    (components : List DigestComponent)
    (llm : DigestComponent → List ChangelogEntry → Except String String)
    (now : Nat) : DigestOutcome :=
  let targeted : DigestComponent → Bool := fun c =>
    match scope with
    | some sc => c.fullKey = sc
    | none => true
  if (components.filter targeted).isEmpty then
    { state := state, components := components, updated := 0, errors := [], success := true }
  else
    let processed := components.map (fun c =>
      if targeted c then digestComponent llm state.last_digest c else (c, none, false))
    let errors := processed.filterMap (fun r => r.2.1)
    let updated := (processed.filter (fun r => r.2.2)).length
    { state := { state with last_digest := some now },
      components := processed.map (fun r => r.1),
      updated := updated, errors := errors, success := errors.isEmpty }


-- ─── Decay engine (src/src/core/librarian.ts, second document: decay.ts) ─

/-- Decay subsection of the config (`DecayConfig`). -/
structure DecayConfig where
  enabled : Bool := true
  archive_threshold : Nat := 15
  max_age_days : Nat := 30
  pinned_entries : List String := []
  exclude_types : List String := []
deriving DecidableEq

/-- The access log: key (`entry:<id>` or `component:<scope>`) to access
count (`last_accessed` is never read by the temperature formula and is
dropped). -/
def AccessLog : Type :=
  List (String × Nat)

/-- Access count of a key, 0 when the key was never touched. -/
def accessCount (log : AccessLog) (key : String) : Nat :=
  (alookup log key).getD 0

/-- `daysSince` of decay: `(now − t)` in whole days, clamped at 0 (the
source divides a millisecond difference by 86400000 and clamps with
`Math.max(0, ·)`; timestamps are embedded in days). -/
def daysSince (now t : Nat) : Nat :=
  now - t

/-- `ageBaseScore` of decay: the piecewise age base. -/
def ageBaseScore (days : Nat) : Nat :=
  if days < 7 then 100
  else if days < 30 then 80
  else if days < 60 then 50
  else if days < 90 then 20
  else 5

/-- `calculateTemperature` of decay: pinned entries short-circuit to
temperature 999 with breakdown `pin_bonus = 999`; otherwise age base plus
access bonus (10 per access on `entry:<id>`, capped at 50) plus reference
bonus (20 iff `component:<scope>` was ever accessed). -/
def calculateTemperature (now : Nat) (entry : ChangelogEntry) (accessLog : AccessLog)
    (pinnedEntries : List String) : Nat × List (String × Nat) :=
  if entry.id ∈ pinnedEntries then
    (999, [("pin_bonus", 999)])
  else
    let base := ageBaseScore (daysSince now entry.time)
    let accessBonus := min 50 (10 * accessCount accessLog ("entry:" ++ entry.id))
    let referenceBonus :=
      if 0 < accessCount accessLog ("component:" ++ entry.scope) then 20 else 0
    (base + accessBonus + referenceBonus,
      [("age_base", base), ("access_bonus", accessBonus), ("reference_bonus", referenceBonus)])

/-- One component directory as decay enumerates it. -/
structure DecayComponent where
  type : String
  key : String
  changelog : List ChangelogEntry
deriving DecidableEq

/-- An archive candidate (`DecayCandidate`). -/
structure DecayCandidate where
  entry : ChangelogEntry
  temperature : Nat
  breakdown : List (String × Nat)
  component : String
deriving DecidableEq

/-- The per-entry candidate test inside `collectCandidates`: skip entries
younger than `max_age_days`; skip entries newer than the safe watermark —
but only when a watermark exists, because the guard is
`if (watermark && entry.time > watermark) continue`, which is skipped
entirely when `watermark` is undefined; then keep the entry iff its
temperature is strictly below the threshold. -/
def candidateForEntry (now : Nat) (cfg : DecayConfig) (accessLog : AccessLog)
    (watermark : Option Nat) (threshold : Nat) (comp : DecayComponent)
    (entry : ChangelogEntry) : Option DecayCandidate :=
  if daysSince now entry.time < cfg.max_age_days then none
  else if (match watermark with
           | some w => decide (w < entry.time)
           | none => false) then none
  else
    let tb := calculateTemperature now entry accessLog cfg.pinned_entries
    if tb.1 < threshold then
      some { entry := entry, temperature := tb.1, breakdown := tb.2,
             component := comp.type ++ "/" ++ comp.key }
    else none

/-- `collectCandidates` of decay: walk every component of a non-excluded
type and collect every entry passing `candidateForEntry`. -/
def collectCandidates (now : Nat) (cfg : DecayConfig) (accessLog : AccessLog)
    (watermark : Option Nat) (threshold : Nat) (comps : List DecayComponent) :
    List DecayCandidate :=
  (comps.filter (fun c => ¬ cfg.exclude_types.contains c.type)).flatMap (fun c =>
    c.changelog.filterMap (candidateForEntry now cfg accessLog watermark threshold c))

/-- One archive record (`ArchiveRecord`). -/
structure ArchiveRecord where
  time : Nat
  entries_moved : Nat
  components_affected : List String
  reason : String
deriving DecidableEq

/-- Persistent decay state (`DecayState`). -/
structure DecayState where
  last_run : Option Nat := none
  last_result : Option String := none
  entries_archived : Nat := 0
  entries_preserved : Nat := 0
  archive_history : List ArchiveRecord := []
deriving DecidableEq

/-- Outcome of a decay run: the surviving component changelogs, the
archive files keyed by `<type>/<key>` (all candidates of one run land in
the same current-month file, so the month suffix is not modelled), and
the updated decay state. -/
structure DecayOutcome where
  components : List DecayComponent
  archives : List (String × List ChangelogEntry)
  state : DecayState
deriving DecidableEq

/-- `runDecay` of decay (the non-dry-run path, decay enabled): collect
candidates with the configured threshold, remove them from each component
changelog and append them to that component's archive file, bump the
totals, append an archive record (keeping the last 50), and stamp
`last_run`.  (The git commit is not modelled.) -/
def runDecay (now : Nat) (cfg : DecayConfig) (accessLog : AccessLog)
    (watermark : Option Nat) (comps : List DecayComponent)
    (archives : List (String × List ChangelogEntry)) (state : DecayState) :
    DecayOutcome :=
  let candidates := collectCandidates now cfg accessLog watermark cfg.archive_threshold comps
  if candidates.isEmpty then
    { components := comps, archives := archives,
      state := { state with last_run := some now, last_result := some "success" } }
  else
    let archiveIdsFor : DecayComponent → List String := fun c =>
      (candidates.filter (fun cand => cand.component = c.type ++ "/" ++ c.key)).map
        (fun cand => cand.entry.id)
    let comps1 := comps.map (fun c =>
      { c with changelog := c.changelog.filter (fun e => ¬ (archiveIdsFor c).contains e.id) })
    let archives1 := comps.foldl (fun acc c =>
      let archived := c.changelog.filter (fun e => (archiveIdsFor c).contains e.id)
      if archived.isEmpty then acc
      else
        let key := c.type ++ "/" ++ c.key
        aupsert acc key (((alookup acc key).getD []) ++ archived)) archives
    let totalMoved := (comps.map (fun c =>
      (c.changelog.filter (fun e => (archiveIdsFor c).contains e.id)).length)).sum
    let affected := (comps.filter (fun c =>
      ¬ (c.changelog.filter (fun e => (archiveIdsFor c).contains e.id)).isEmpty)).map
        (fun c => c.type ++ "/" ++ c.key)
    let history := state.archive_history ++
      [{ time := now, entries_moved := totalMoved, components_affected := affected,
         reason := "temperature_decay" }]
    { components := comps1, archives := archives1,
      state := { state with
        last_run := some now, last_result := some "success",
        entries_archived := state.entries_archived + totalMoved,
        archive_history :=
          if 50 < history.length then history.drop (history.length - 50) else history } }

/-- Modelled from the spec: `getSafeWatermark`, exported by the librarian
module and imported by decay, is absent from the provided sources (only
its import and call sites are).  Spec §4.11: the safe watermark is the
minimum, over all components that have ever had any changelog entry, of
that component's last-digest time; a component with activity but no digest
yet means there is no watermark ("absent digest = no watermark yet = ∞
from decay's perspective").  `activity` lists the components with any
changelog entry; `coverage` is the per-component last-digest map. -/
def getSafeWatermark (activity : List String) (coverage : List (String × Nat)) :
    Option Nat :=
  if activity.isEmpty then none
  else
    let times := activity.map (fun c => alookup coverage c)
    if times.all (fun t => t.isSome) then (times.filterMap id).min? else none

-- ═══ Theorems ════════════════════════════════════════════════════════════

theorem ensureRelationshipComponent_profiles (entityId : String) (store : RelStore) :
    (ensureRelationshipComponent entityId store).profiles = store.profiles := by
  unfold ensureRelationshipComponent
  split <;> rfl

theorem recordChangelog_mem_global (input : RecordInput) (id : String) (time : Nat)
    (ym : String) (store : PalaceStore) :
    (recordChangelog input id time ym store).1 ∈
      globalEntries (recordChangelog input id time ym store).2 ym := by
  unfold recordChangelog globalEntries appendYamlEntry
  cases hres : resolveComponentChangelog input.scope with
  | none => simp [alookup_aupsert_self]
  | some tk => simp [alookup_aupsert_self]

/-- C6: a recorded changelog entry whose scope resolves to an existing
component path `<type>/<key>` is appended to that component's changelog,
and every recorded entry is appended to the month-bucketed global
changelog of the current `year_month` — so it appears in both logs. -/
theorem changelog_dual_write (input : RecordInput) (id : String) (time : Nat)
    (ym : String) (store : PalaceStore) (t k : String)
    (hres : resolveComponentChangelog input.scope = some (t, k))
    (_hex : (alookup store.componentLogs (componentPath t k)).isSome = true) :
    (recordChangelog input id time ym store).1 ∈
      componentEntries (recordChangelog input id time ym store).2 (componentPath t k) ∧
    (recordChangelog input id time ym store).1 ∈
      globalEntries (recordChangelog input id time ym store).2 ym := by
  refine ⟨?_, recordChangelog_mem_global input id time ym store⟩
  unfold recordChangelog componentEntries appendYamlEntry
  rw [hres]
  simp [alookup_aupsert_self]

/-- Witness for C6 at a concrete input: scope `projects/alpha` resolves,
the component changelog file exists, and the recorded entry lands in both
the component changelog and the global month file. -/
theorem changelog_dual_write_witness :
    resolveComponentChangelog "projects/alpha" = some ("projects", "alpha") ∧
    ((recordChangelog
        { scope := "projects/alpha", type := EntryType.operation, summary := "did a thing" }
        "op_0101_001" 5 "2025-01"
        { componentLogs := [("projects/alpha", [])], globalLogs := [] }).1 ∈
      componentEntries
        (recordChangelog
          { scope := "projects/alpha", type := EntryType.operation, summary := "did a thing" }
          "op_0101_001" 5 "2025-01"
          { componentLogs := [("projects/alpha", [])], globalLogs := [] }).2
        (componentPath "projects" "alpha") ∧
     (recordChangelog
        { scope := "projects/alpha", type := EntryType.operation, summary := "did a thing" }
        "op_0101_001" 5 "2025-01"
        { componentLogs := [("projects/alpha", [])], globalLogs := [] }).1 ∈
      globalEntries
        (recordChangelog
          { scope := "projects/alpha", type := EntryType.operation, summary := "did a thing" }
          "op_0101_001" 5 "2025-01"
          { componentLogs := [("projects/alpha", [])], globalLogs := [] }).2 "2025-01") :=
  ⟨by decide,
   changelog_dual_write
     { scope := "projects/alpha", type := EntryType.operation, summary := "did a thing" }
     "op_0101_001" 5 "2025-01"
     { componentLogs := [("projects/alpha", [])], globalLogs := [] }
     "projects" "alpha" (by decide) (by decide)⟩

/-- C7: after every `updateTrust(entityId, delta, reason)` the stored
trust score is the previous score plus delta clamped into [0, 1], and the
trust-history item appended records the caller's delta (not the clamped
effective change). -/
theorem updateTrust_clamped_and_history (store : RelStore) (entityId : String)
    (delta : ℚ) (reason date : String) :
    0 ≤ (updateTrust entityId delta reason date store).1.trust_score ∧
    (updateTrust entityId delta reason date store).1.trust_score ≤ 1 ∧
    (updateTrust entityId delta reason date store).1.trust_score =
      max 0 (min 1
        (((alookup store.profiles entityId).getD (defaultProfile entityId)).trust_score + delta)) ∧
    (updateTrust entityId delta reason date store).1.trust_history.getLast? =
      some { date := date, delta := delta, reason := reason } ∧
    alookup (updateTrust entityId delta reason date store).2.profiles entityId =
      some (updateTrust entityId delta reason date store).1 := by
  refine ⟨le_max_left 0 _, max_le (by norm_num) (min_le_left 1 _), ?_, ?_, ?_⟩
  · simp [updateTrust, ensureRelationshipComponent_profiles]
  · simp [updateTrust, List.getLast?_concat]
  · simp [updateTrust, alookup_aupsert_self]

/-- C8: saving a snapshot and reading it back yields the saved document:
`updated_at` is refreshed to the save time, supplied fields equal the
input's, and unsupplied fields inherit from the previous snapshot (or the
defaults — empty lists, empty notes, absent metadata — when none
exists). -/
theorem snapshot_save_read_roundtrip (existing : Option Snapshot)
    (input : SnapshotInput) (now : String) :
    readSnapshot (snapshotFileAfterSave existing input now) =
      some (saveSnapshot existing input now) ∧
    (saveSnapshot existing input now).updated_at = now ∧
    (saveSnapshot existing input now).current_focus = input.current_focus ∧
    (saveSnapshot existing input now).updated_by =
      input.updated_by.orElse (fun _ => existing.bind (fun s => s.updated_by)) ∧
    (saveSnapshot existing input now).active_tasks =
      input.active_tasks.getD ((existing.map (fun s => s.active_tasks)).getD []) ∧
    (saveSnapshot existing input now).blockers =
      input.blockers.getD ((existing.map (fun s => s.blockers)).getD []) ∧
    (saveSnapshot existing input now).recent_decisions =
      input.recent_decisions.getD ((existing.map (fun s => s.recent_decisions)).getD []) ∧
    (saveSnapshot existing input now).context_notes =
      input.context_notes.getD ((existing.map (fun s => s.context_notes)).getD "") ∧
    (saveSnapshot existing input now).session_meta =
      input.session_meta.orElse (fun _ => existing.bind (fun s => s.session_meta)) :=
  ⟨rfl, rfl, rfl, rfl, rfl, rfl, rfl, rfl, rfl⟩

/-- C10: executing a registered system whose `execute` throws still
returns a structured result — `success = false` with message
`System error: <msg>` — and updates the persisted system state exactly
once: `run_count` grows by one and `last_run`, `last_result`,
`last_message` reflect this run. -/
theorem executeSystem_catches_and_updates (registry : List (String × SystemRegistration))
    (stateMap : List (String × SystemState)) (name : String) (params : SystemParams)
    (now : String) (reg : SystemRegistration) (e : String)
    (hreg : alookup registry name = some reg)
    (hthrow : reg.execute params = Except.error e) :
    (executeSystem registry stateMap name params now).1.success = false ∧
    (executeSystem registry stateMap name params now).1.message = "System error: " ++ e ∧
    alookup (executeSystem registry stateMap name params now).2 name =
      some { last_run := some now, last_result := some "error",
             last_message := some ("System error: " ++ e),
             run_count := ((alookup stateMap name).getD {}).run_count + 1,
             pending_items := ((alookup stateMap name).getD {}).pending_items } := by
  unfold executeSystem
  rw [hreg]
  simp [hthrow, alookup_aupsert_self]

/-- Witness for C10 at a concrete input: a registered system that always
throws yields a caught error result and a state with `run_count` bumped
from 2 to 3. -/
theorem executeSystem_catches_and_updates_witness :
    (executeSystem
        [("boom",
          { name := "boom", description := "always throws", default_trigger := "on_demand",
            execute := fun _ => Except.error "kaboom" })]
        [("boom", { run_count := 2 })] "boom" [] "2025-01-02T03:04:05Z").1.success = false ∧
    (executeSystem
        [("boom",
          { name := "boom", description := "always throws", default_trigger := "on_demand",
            execute := fun _ => Except.error "kaboom" })]
        [("boom", { run_count := 2 })] "boom" [] "2025-01-02T03:04:05Z").1.message =
      "System error: " ++ "kaboom" ∧
    alookup
      (executeSystem
        [("boom",
          { name := "boom", description := "always throws", default_trigger := "on_demand",
            execute := fun _ => Except.error "kaboom" })]
        [("boom", { run_count := 2 })] "boom" [] "2025-01-02T03:04:05Z").2 "boom" =
      some { last_run := some "2025-01-02T03:04:05Z", last_result := some "error",
             last_message := some ("System error: " ++ "kaboom"),
             run_count := 3, pending_items := none } :=
  executeSystem_catches_and_updates
    [("boom",
      { name := "boom", description := "always throws", default_trigger := "on_demand",
        execute := fun _ => Except.error "kaboom" })]
    [("boom", { run_count := 2 })] "boom" [] "2025-01-02T03:04:05Z"
    { name := "boom", description := "always throws", default_trigger := "on_demand",
      execute := fun _ => Except.error "kaboom" }
    "kaboom" (by simp [alookup]) rfl

/-- C2 fails on src/src/utils/id.ts: that copy keeps a bare in-memory
counter with no recovery scan, so after a same-day restart it reissues
ids already used.  Concretely: before the restart the process issues
`op_0225_001` and then `op_0225_002`; a restarted process (counter back
at 0) issues `op_0225_001` again — not strictly greater than the ids
already issued that day.  The recovering copy (src/unnamed/part_003),
scanning a month log containing those two ids, continues at
`op_0225_003` exactly as the claim states. -/
theorem id_restart_duplicates_in_nonrecovering_copy :
    generateIdNonRecovering IdKind.op "0225" 0 = ("op_0225_001", 1) ∧
    generateIdNonRecovering IdKind.op "0225" 1 = ("op_0225_002", 2) ∧
    (generateIdRecovering IdKind.op "0225" ["op_0225_001", "op_0225_002"]
        { counter := 0, counterDate := "" }).1 = "op_0225_003" := by
  decide

/-- C3: when `validate` is set, or the entry is a decision while
`validation.auto_validate_decisions` is true, the validator is invoked
and its verdict returned with the record result, while the entry is
written to the global month log regardless of the verdict (a non-passing
verdict is advisory). -/
theorem record_validates_and_still_writes (validator : RecordInput → ValidationResult)
    (cfg : ValidationConfig) (input : RecordInputV) (id : String) (time : Nat)
    (ym : String) (store : PalaceStore)
    (h : input.validate = true ∨
      (input.base.type = EntryType.decision ∧ cfg.auto_validate_decisions = true)) :
    (recordChangelogValidated validator cfg input id time ym store).2.1 =
      some (validator input.base) ∧
    (recordChangelogValidated validator cfg input id time ym store).1 ∈
      globalEntries (recordChangelogValidated validator cfg input id time ym store).2.2 ym := by
  have hsv : (input.validate ||
      (input.base.type = EntryType.decision && cfg.auto_validate_decisions)) = true := by
    rcases h with h | ⟨h1, h2⟩
    · simp [h]
    · simp [h1, h2]
  constructor
  · simp only [recordChangelogValidated]
    rw [hsv]
    simp
  · simp only [recordChangelogValidated]
    exact recordChangelog_mem_global input.base id time ym store

/-- Witness for C3 at a concrete input: a decision entry under the default
config (`auto_validate_decisions = true`) with a validator that does not
pass; the non-passing verdict and its risk are returned and the entry is
still appended to the global month log. -/
theorem record_validates_and_still_writes_witness :
    ((({ base := { scope := "projects/alpha", type := EntryType.decision,
                   decision := some "Use Store X", summary := "decided" },
         validate := false } : RecordInputV).validate = true) ∨
      (({ base := { scope := "projects/alpha", type := EntryType.decision,
                    decision := some "Use Store X", summary := "decided" },
          validate := false } : RecordInputV).base.type = EntryType.decision ∧
        defaultValidationConfig.auto_validate_decisions = true)) ∧
    (recordChangelogValidated
        (fun _ => { passed := false,
                    risks := [{ type := RiskType.duplicate, severity := Severity.warning,
                                description := "duplicates an earlier decision" }] })
        defaultValidationConfig
        { base := { scope := "projects/alpha", type := EntryType.decision,
                    decision := some "Use Store X", summary := "decided" },
          validate := false }
        "dec_0101_001" 7 "2025-01" { componentLogs := [], globalLogs := [] }).2.1 =
      some { passed := false,
             risks := [{ type := RiskType.duplicate, severity := Severity.warning,
                         description := "duplicates an earlier decision" }] } ∧
    (recordChangelogValidated
        (fun _ => { passed := false,
                    risks := [{ type := RiskType.duplicate, severity := Severity.warning,
                                description := "duplicates an earlier decision" }] })
        defaultValidationConfig
        { base := { scope := "projects/alpha", type := EntryType.decision,
                    decision := some "Use Store X", summary := "decided" },
          validate := false }
        "dec_0101_001" 7 "2025-01" { componentLogs := [], globalLogs := [] }).1 ∈
      globalEntries
        (recordChangelogValidated
          (fun _ => { passed := false,
                      risks := [{ type := RiskType.duplicate, severity := Severity.warning,
                                  description := "duplicates an earlier decision" }] })
          defaultValidationConfig
          { base := { scope := "projects/alpha", type := EntryType.decision,
                      decision := some "Use Store X", summary := "decided" },
            validate := false }
          "dec_0101_001" 7 "2025-01" { componentLogs := [], globalLogs := [] }).2.2
        "2025-01" :=
  ⟨Or.inr ⟨rfl, rfl⟩,
   record_validates_and_still_writes
     (fun _ => { passed := false,
                 risks := [{ type := RiskType.duplicate, severity := Severity.warning,
                             description := "duplicates an earlier decision" }] })
     defaultValidationConfig
     { base := { scope := "projects/alpha", type := EntryType.decision,
                 decision := some "Use Store X", summary := "decided" },
       validate := false }
     "dec_0101_001" 7 "2025-01" { componentLogs := [], globalLogs := [] }
     (Or.inr ⟨rfl, rfl⟩)⟩

/-- C9: a trust update, profile update, or interaction log for an entity
with no profile and no backing component first creates the
`relationships/<entity_id>` component and starts from the default profile
— type user, empty tags and history, trust 0.5 — so the first trust
update yields `clamp(0.5 + delta)`, the profile update keeps type user
unless one is supplied, and the interaction log leaves trust at 0.5. -/
theorem fresh_entity_creates_component_and_defaults (store : RelStore)
    (entityId : String) (delta : ℚ) (reason date : String)
    (updates : ProfileUpdates) (tags : List String)
    (hp : alookup store.profiles entityId = none)
    (hc : relScope entityId ∉ store.components) :
    relScope entityId ∈ (updateTrust entityId delta reason date store).2.components ∧
    (updateTrust entityId delta reason date store).1.trust_score =
      max 0 (min 1 (1 / 2 + delta)) ∧
    (updateTrust entityId delta reason date store).1.type = RelType.user ∧
    (updateTrust entityId delta reason date store).1.interaction_tags = [] ∧
    (updateTrust entityId delta reason date store).1.trust_history =
      [{ date := date, delta := delta, reason := reason }] ∧
    relScope entityId ∈ (updateProfile entityId updates store).2.components ∧
    (updateProfile entityId updates store).1.type = updates.type.getD RelType.user ∧
    (updateProfile entityId updates store).1.trust_score = 1 / 2 ∧
    relScope entityId ∈ (logInteraction entityId tags date store).2.components ∧
    (logInteraction entityId tags date store).1.trust_score = 1 / 2 ∧
    (logInteraction entityId tags date store).1.trust_history = [] := by
  refine ⟨?_, ?_, ?_, ?_, ?_, ?_, ?_, ?_, ?_, ?_, ?_⟩ <;>
    simp [updateTrust, updateProfile, logInteraction, ensureRelationshipComponent,
      hp, hc, defaultProfile]

/-- Witness for C9 at a concrete input: entity `alice` with an empty
store; the backing component is created and the defaults flow through all
three operations. -/
theorem fresh_entity_creates_component_and_defaults_witness :
    alookup ({ components := [], profiles := [] } : RelStore).profiles "alice" = none ∧
    relScope "alice" ∉ ({ components := [], profiles := [] } : RelStore).components ∧
    (relScope "alice" ∈
        (updateTrust "alice" (3 / 10) "helped" "2025-01-02"
          { components := [], profiles := [] }).2.components ∧
      (updateTrust "alice" (3 / 10) "helped" "2025-01-02"
          { components := [], profiles := [] }).1.trust_score =
        max 0 (min 1 (1 / 2 + 3 / 10)) ∧
      (updateTrust "alice" (3 / 10) "helped" "2025-01-02"
          { components := [], profiles := [] }).1.type = RelType.user ∧
      (updateTrust "alice" (3 / 10) "helped" "2025-01-02"
          { components := [], profiles := [] }).1.interaction_tags = [] ∧
      (updateTrust "alice" (3 / 10) "helped" "2025-01-02"
          { components := [], profiles := [] }).1.trust_history =
        [{ date := "2025-01-02", delta := 3 / 10, reason := "helped" }] ∧
      relScope "alice" ∈
        (updateProfile "alice" { style := some "terse" }
          { components := [], profiles := [] }).2.components ∧
      (updateProfile "alice" { style := some "terse" }
          { components := [], profiles := [] }).1.type =
        ({ style := some "terse" } : ProfileUpdates).type.getD RelType.user ∧
      (updateProfile "alice" { style := some "terse" }
          { components := [], profiles := [] }).1.trust_score = 1 / 2 ∧
      relScope "alice" ∈
        (logInteraction "alice" ["helpful"] "2025-01-02"
          { components := [], profiles := [] }).2.components ∧
      (logInteraction "alice" ["helpful"] "2025-01-02"
          { components := [], profiles := [] }).1.trust_score = 1 / 2 ∧
      (logInteraction "alice" ["helpful"] "2025-01-02"
          { components := [], profiles := [] }).1.trust_history = []) :=
  ⟨rfl, by simp,
   fresh_entity_creates_component_and_defaults { components := [], profiles := [] }
     "alice" (3 / 10) "helped" "2025-01-02" { style := some "terse" } ["helpful"]
     rfl (by simp)⟩

/-- C5 as frozen is refuted at a concrete input: a pinned entry has
temperature 999 (breakdown `pin_bonus = 999`) as the claim says, but the
comparison is `temperature < threshold`, so under a preview threshold
override of 1000 the pinned entry is listed as a candidate, and a run
with `archive_threshold = 1000` archives it. -/
theorem pinned_entry_archived_at_threshold_1000 :
    calculateTemperature 200
      { id := "op_0101_002", time := 0, type := EntryType.operation,
        scope := "projects/alpha", summary := "pinned entry" } [] ["op_0101_002"] =
      (999, [("pin_bonus", 999)]) ∧
    collectCandidates 200
      { archive_threshold := 1000, pinned_entries := ["op_0101_002"] } [] none 1000
      [{ type := "projects", key := "alpha",
         changelog := [{ id := "op_0101_002", time := 0, type := EntryType.operation,
                         scope := "projects/alpha", summary := "pinned entry" }] }] =
      [{ entry := { id := "op_0101_002", time := 0, type := EntryType.operation,
                    scope := "projects/alpha", summary := "pinned entry" },
         temperature := 999, breakdown := [("pin_bonus", 999)],
         component := "projects/alpha" }] ∧
    (runDecay 200 { archive_threshold := 1000, pinned_entries := ["op_0101_002"] } [] none
      [{ type := "projects", key := "alpha",
         changelog := [{ id := "op_0101_002", time := 0, type := EntryType.operation,
                         scope := "projects/alpha", summary := "pinned entry" }] }]
      [] {}).archives =
      [("projects/alpha",
        [{ id := "op_0101_002", time := 0, type := EntryType.operation,
           scope := "projects/alpha", summary := "pinned entry" }])] := by
  refine ⟨by decide, by decide, by decide⟩

theorem candidateForEntry_some (now : Nat) (cfg : DecayConfig)
    (accessLog : AccessLog) (watermark : Option Nat) (threshold : Nat)
    (comp : DecayComponent) (e : ChangelogEntry) (c : DecayCandidate)
    (heq : candidateForEntry now cfg accessLog watermark threshold comp e = some c) :
    c.entry = e ∧
    c.temperature = (calculateTemperature now e accessLog cfg.pinned_entries).1 ∧
    c.temperature < threshold := by
  unfold candidateForEntry at heq
  dsimp only at heq
  split_ifs at heq with h1 h2 h3
  injection heq with h
  subst h
  exact ⟨rfl, rfl, h3⟩

/-- C5 amended: a pinned entry always reports temperature 999 with
breakdown `pin_bonus = 999`, and — for any threshold not exceeding 999,
which covers the default 15 and every documented configuration — a pinned
entry is never listed as an archive candidate (and hence never
archived). -/
theorem pinned_temp_999_and_never_candidate_below_1000 (now : Nat)
    (cfg : DecayConfig) (accessLog : AccessLog) (watermark : Option Nat)
    (threshold : Nat) (comps : List DecayComponent) (c : DecayCandidate)
    (entry : ChangelogEntry)
    (hthr : threshold ≤ 999)
    (hc : c ∈ collectCandidates now cfg accessLog watermark threshold comps)
    (hpin : entry.id ∈ cfg.pinned_entries) :
    c.entry.id ∉ cfg.pinned_entries ∧
    calculateTemperature now entry accessLog cfg.pinned_entries =
      (999, [("pin_bonus", 999)]) := by
  constructor
  · intro hcpin
    rw [collectCandidates, List.mem_flatMap] at hc
    obtain ⟨comp, _hcomp, hc2⟩ := hc
    rw [List.mem_filterMap] at hc2
    obtain ⟨e, _he, heq⟩ := hc2
    obtain ⟨hce, htemp, hlt⟩ :=
      candidateForEntry_some now cfg accessLog watermark threshold comp e c heq
    rw [hce] at hcpin
    rw [htemp, calculateTemperature, if_pos hcpin] at hlt
    exact absurd (lt_of_lt_of_le hlt hthr) (by norm_num)
  · rw [calculateTemperature, if_pos hpin]

/-- Witness for the amended C5 at a concrete input: with
`op_0101_002` pinned and the default threshold 15, the sole candidate is
the unpinned old entry `op_0101_001`, and the pinned entry reports
temperature 999 with `pin_bonus = 999`. -/
theorem pinned_temp_999_and_never_candidate_below_1000_witness :
    (15 : Nat) ≤ 999 ∧
    { entry := { id := "op_0101_001", time := 0, type := EntryType.operation,
                 scope := "projects/alpha", summary := "an old entry" },
      temperature := 5,
      breakdown := [("age_base", 5), ("access_bonus", 0), ("reference_bonus", 0)],
      component := "projects/alpha" } ∈
      collectCandidates 200 { pinned_entries := ["op_0101_002"] } [] none 15
        [{ type := "projects", key := "alpha",
           changelog := [{ id := "op_0101_001", time := 0, type := EntryType.operation,
                           scope := "projects/alpha", summary := "an old entry" },
                         { id := "op_0101_002", time := 0, type := EntryType.operation,
                           scope := "projects/alpha", summary := "pinned entry" }] }] ∧
    ({ id := "op_0101_002", time := 0, type := EntryType.operation,
       scope := "projects/alpha", summary := "pinned entry" } : ChangelogEntry).id ∈
      ({ pinned_entries := ["op_0101_002"] } : DecayConfig).pinned_entries ∧
    ({ entry := { id := "op_0101_001", time := 0, type := EntryType.operation,
                  scope := "projects/alpha", summary := "an old entry" },
       temperature := 5,
       breakdown := [("age_base", 5), ("access_bonus", 0), ("reference_bonus", 0)],
       component := "projects/alpha" } : DecayCandidate).entry.id ∉
      ({ pinned_entries := ["op_0101_002"] } : DecayConfig).pinned_entries ∧
    calculateTemperature 200
      { id := "op_0101_002", time := 0, type := EntryType.operation,
        scope := "projects/alpha", summary := "pinned entry" }
      [] ({ pinned_entries := ["op_0101_002"] } : DecayConfig).pinned_entries =
      (999, [("pin_bonus", 999)]) :=
  ⟨by decide, by decide, by decide,
   pinned_temp_999_and_never_candidate_below_1000 200
     { pinned_entries := ["op_0101_002"] } [] none 15
     [{ type := "projects", key := "alpha",
        changelog := [{ id := "op_0101_001", time := 0, type := EntryType.operation,
                        scope := "projects/alpha", summary := "an old entry" },
                      { id := "op_0101_002", time := 0, type := EntryType.operation,
                        scope := "projects/alpha", summary := "pinned entry" }] }]
     { entry := { id := "op_0101_001", time := 0, type := EntryType.operation,
                  scope := "projects/alpha", summary := "an old entry" },
       temperature := 5,
       breakdown := [("age_base", 5), ("access_bonus", 0), ("reference_bonus", 0)],
       component := "projects/alpha" }
     { id := "op_0101_002", time := 0, type := EntryType.operation,
       scope := "projects/alpha", summary := "pinned entry" }
     (by decide) (by decide) (by decide)⟩

/-- C1 fails on the code: `getSafeWatermark` (modelled from the spec)
yields no watermark when a component has changelog activity but was never
digested, and the decay gate `if (watermark && entry.time > watermark)`
is skipped entirely when the watermark is absent — so with no digest ever
run, an old cold entry is listed as an archive candidate and archived,
where the claim (and the decay module's own header comment) say nothing
is safe to archive. -/
theorem decay_archives_despite_absent_watermark :
    getSafeWatermark ["projects/alpha"] [] = none ∧
    collectCandidates 200 {} [] (getSafeWatermark ["projects/alpha"] []) 15
      [{ type := "projects", key := "alpha",
         changelog := [{ id := "op_0101_001", time := 0, type := EntryType.operation,
                         scope := "projects/alpha", summary := "an old entry" }] }] =
      [{ entry := { id := "op_0101_001", time := 0, type := EntryType.operation,
                    scope := "projects/alpha", summary := "an old entry" },
         temperature := 5,
         breakdown := [("age_base", 5), ("access_bonus", 0), ("reference_bonus", 0)],
         component := "projects/alpha" }] ∧
    (runDecay 200 {} [] (getSafeWatermark ["projects/alpha"] [])
      [{ type := "projects", key := "alpha",
         changelog := [{ id := "op_0101_001", time := 0, type := EntryType.operation,
                         scope := "projects/alpha", summary := "an old entry" }] }]
      [] {}).archives =
      [("projects/alpha",
        [{ id := "op_0101_001", time := 0, type := EntryType.operation,
           scope := "projects/alpha", summary := "an old entry" }])] ∧
    (runDecay 200 {} [] (getSafeWatermark ["projects/alpha"] [])
      [{ type := "projects", key := "alpha",
         changelog := [{ id := "op_0101_001", time := 0, type := EntryType.operation,
                         scope := "projects/alpha", summary := "an old entry" }] }]
      [] {}).components =
      [{ type := "projects", key := "alpha", changelog := [] }] := by
  refine ⟨by decide, by decide, by decide, by decide⟩

/-- C4 fails on the code at a concrete input: a digest run over one
component whose LLM call fails reports `success = false` and leaves the
summary untouched, yet still advances the digest state timestamp
`last_digest` from none to the run time — the state file in
src/src/core/librarian.ts keeps no per-component coverage, and
`state.last_digest = isoNow()` executes unconditionally after the
loop. -/
theorem digest_timestamp_advances_despite_failure :
    runDigest none {}
      [{ fullKey := "projects/alpha",
         changelog := [{ id := "op_0101_001", time := 10, type := EntryType.operation,
                         scope := "projects/alpha", summary := "new work" }],
         summary := none }]
      (fun _ _ => Except.error "LLM unavailable") 99 =
      { state := { last_digest := some 99 },
        components := [{ fullKey := "projects/alpha",
                         changelog := [{ id := "op_0101_001", time := 10,
                                         type := EntryType.operation,
                                         scope := "projects/alpha", summary := "new work" }],
                         summary := none }],
        updated := 0,
        errors := ["projects/alpha (LLM): LLM unavailable"],
        success := false } ∧
    ({} : LibrarianState).last_digest = none := by
  refine ⟨by decide, rfl⟩

/-- C4 amended: a digest run that targets at least one component sets the
global `last_digest` timestamp to the run time unconditionally, even when
LLM calls failed; the per-component guarantee that does hold is the
absence of partial writes — a component whose LLM call fails keeps its
summary (and everything else) unchanged and is not counted as updated. -/
theorem digest_unconditional_stamp_and_no_partial_write (state : LibrarianState)
    (comps : List DigestComponent)
    (llm : DigestComponent → List ChangelogEntry → Except String String)
    (now : Nat) (c : DigestComponent) (e : String)
    (hne : comps ≠ [])
    (hfail : llm c (filterNewEntries c.changelog state.last_digest) = Except.error e) :
    (runDigest none state comps llm now).state.last_digest = some now ∧
    (digestComponent llm state.last_digest c).1 = c ∧
    (digestComponent llm state.last_digest c).2.2 = false := by
  have hie : comps.isEmpty = false := by
    cases comps with
    | nil => exact absurd rfl hne
    | cons a l => rfl
  refine ⟨?_, ?_, ?_⟩
  · unfold runDigest
    dsimp only
    rw [List.filter_true, hie]
    rfl
  · by_cases h1 : c.changelog.isEmpty
    · simp [digestComponent, h1]
    · by_cases h2 : (filterNewEntries c.changelog state.last_digest).isEmpty
      · simp [digestComponent, h1, h2]
      · simp [digestComponent, h1, h2, hfail]
  · by_cases h1 : c.changelog.isEmpty
    · simp [digestComponent, h1]
    · by_cases h2 : (filterNewEntries c.changelog state.last_digest).isEmpty
      · simp [digestComponent, h1, h2]
      · simp [digestComponent, h1, h2, hfail]

/-- Witness for the amended C4 at a concrete input: one component, a
failing LLM; the timestamp is stamped with the run time while the
component comes through unchanged and not updated. -/
theorem digest_unconditional_stamp_and_no_partial_write_witness :
    ([{ fullKey := "projects/alpha",
        changelog := [{ id := "op_0101_001", time := 10, type := EntryType.operation,
                        scope := "projects/alpha", summary := "new work" }],
        summary := none }] : List DigestComponent) ≠ [] ∧
    ((runDigest none ({} : LibrarianState)
        [{ fullKey := "projects/alpha",
           changelog := [{ id := "op_0101_001", time := 10, type := EntryType.operation,
                           scope := "projects/alpha", summary := "new work" }],
           summary := none }]
        (fun _ _ => Except.error "LLM unavailable") 99).state.last_digest = some 99 ∧
      (digestComponent (fun _ _ => Except.error "LLM unavailable")
          ({} : LibrarianState).last_digest
          { fullKey := "projects/alpha",
            changelog := [{ id := "op_0101_001", time := 10, type := EntryType.operation,
                            scope := "projects/alpha", summary := "new work" }],
            summary := none }).1 =
        { fullKey := "projects/alpha",
          changelog := [{ id := "op_0101_001", time := 10, type := EntryType.operation,
                          scope := "projects/alpha", summary := "new work" }],
          summary := none } ∧
      (digestComponent (fun _ _ => Except.error "LLM unavailable")
          ({} : LibrarianState).last_digest
          { fullKey := "projects/alpha",
            changelog := [{ id := "op_0101_001", time := 10, type := EntryType.operation,
                            scope := "projects/alpha", summary := "new work" }],
            summary := none }).2.2 = false) :=
  ⟨by decide,
   digest_unconditional_stamp_and_no_partial_write {}
     [{ fullKey := "projects/alpha",
        changelog := [{ id := "op_0101_001", time := 10, type := EntryType.operation,
                        scope := "projects/alpha", summary := "new work" }],
        summary := none }]
     (fun _ _ => Except.error "LLM unavailable") 99
     { fullKey := "projects/alpha",
       changelog := [{ id := "op_0101_001", time := 10, type := EntryType.operation,
                       scope := "projects/alpha", summary := "new work" }],
       summary := none }
     "LLM unavailable" (by decide) rfl⟩

end OpenPalace
